import Mathlib

/-!
A shallow embedding of `src/app.py` (a small Flask backend: a farmer-record
lookup keyed by a normalized identifier, a chat endpoint backed by an external
completion service, and a health endpoint), together with theorems settling
the specification claims about it.

Machine-level aspects (HTTP transport, pandas internals, the network call to
the completion service) are modelled by explicit data: the module-level state
established at startup is an `AppState`, each request handler is a pure
function from that state and the request body to a response value, and the
external completion call is a parameter recording whether it was invoked.
-/

namespace Kshiti

/-! ### Key normalization (app.py lines 40 and 102)

Line 40:  `farmer_df['rtc_number'].astype(str).str.replace(r'[^a-zA-Z0-9]', '', regex=True).str.lower()`
Line 102: `re.sub(r'[^a-zA-Z0-9]', '', str(rtc_number)).lower()`

Both remove every character outside `[a-zA-Z0-9]` and then lower-case the
remainder.  After the removal only ASCII alphanumeric characters remain, so
lower-casing is the ASCII `A-Z` → `a-z` map. -/

/-- Membership in the regex character class `[a-zA-Z0-9]`. -/
def isAlnumChar (c : Char) : Bool :=
  ('a' ≤ c && c ≤ 'z') || ('A' ≤ c && c ≤ 'Z') || ('0' ≤ c && c ≤ '9')

/-- ASCII lower-casing of one character (`A`..`Z` map to `a`..`z`, all other
characters are unchanged). -/
def lowerChar (c : Char) : Char :=
  if 'A' ≤ c && c ≤ 'Z' then Char.ofNat (c.toNat + 32) else c

/-- `re.sub(r'[^a-zA-Z0-9]', '', s)`: delete every character outside the
class. -/
def stripNonAlnum (s : String) : String :=
  String.mk (s.data.filter isAlnumChar)

/-- Python `str.lower()` restricted to its ASCII action (the only case that
arises here, since it is always applied after `stripNonAlnum`). -/
def strLower (s : String) : String :=
  String.mk (s.data.map lowerChar)

/-- The per-row key built at load time (app.py line 40). -/
def cleaned_rtc_row (s : String) : String :=
  strLower (stripNonAlnum s)

/-- The query key built at call time (app.py line 102). -/
def cleaned_rtc_input (s : String) : String :=
  strLower (stripNonAlnum s)

/-! ### Python request values

A JSON body field, as produced by `request.get_json()` followed by
`data.get(key)`: `Option.none` models an absent key (Python `None`); the
constructors model the JSON scalar values a client can bind the key to. -/

inductive PyVal where
  | str (s : String)
  | int (n : Int)
  | bool (b : Bool)
  | null
deriving DecidableEq

/-- Python truthiness of a JSON scalar (`if not rtc_number:` / `if not
user_question:`). -/
def pyTruthy : PyVal → Bool
  | PyVal.str s => !(s == "")
  | PyVal.int n => !(n == 0)
  | PyVal.bool b => b
  | PyVal.null => false

/-- Truthiness of a `data.get(key)` result; an absent key yields Python
`None`, which is falsy. -/
def pyGetTruthy : Option PyVal → Bool
  | Option.none => false
  | some v => pyTruthy v

/-- Python `str(...)` applied to a JSON scalar (app.py line 102 applies
`str` to the request value before normalizing it). -/
def pyStr : PyVal → String
  | PyVal.str s => s
  | PyVal.int n => toString n
  | PyVal.bool b => if b then "True" else "False"
  | PyVal.null => "None"

/-- Truthiness of the module-level `api_key` (`os.getenv` result: absent
variable gives `None`, otherwise the string, possibly empty). -/
def strOptTruthy : Option String → Bool
  | Option.none => false
  | some s => !(s == "")

/-! ### The farmer table (pandas DataFrame loaded at app.py lines 34-45) -/

/-- A tabular cell after `pd.read_csv`: a missing value (NaN), a number, or
a string.  No arithmetic is ever performed on numbers, so they are carried
as rationals. -/
inductive Cell where
  | na
  | num (q : ℚ)
  | str (s : String)
deriving DecidableEq

/-- A CSV row: the required `rtc_number` identifier column plus the other
columns in order. -/
structure Row where
  rtc_number : String
  rest : List (String × Cell)
deriving DecidableEq

/-- A row after startup added the `cleaned_rtc` column (app.py line 40). -/
structure LoadedRow where
  row : Row
  cleaned_rtc : String
deriving DecidableEq

/-- Startup key-building over the whole table (app.py line 40): every row
gets `cleaned_rtc = cleaned_rtc_row rtc_number`. -/
def loadTable (rows : List Row) : List LoadedRow :=
  rows.map (fun r => LoadedRow.mk r (cleaned_rtc_row r.rtc_number))

/-! ### JSON response values and row serialization (app.py lines 106-115) -/

/-- A value in the success payload: string, number, or null — the only
shapes the serialization loop can produce. -/
inductive JVal where
  | null
  | num (q : ℚ)
  | str (s : String)
deriving DecidableEq

/-- One cell of the matched row, serialized as at app.py lines 109-113:
`pd.isna(value)` becomes `None` (null); numeric scalars pass through
(`value.item()` only changes the runtime representation); strings pass
through. -/
def serializeCell : Cell → JVal
  | Cell.na => JVal.null
  | Cell.num q => JVal.num q
  | Cell.str s => JVal.str s

/-- `result_row.iloc[0].to_dict()`: column-name/value pairs of the matched
row, including the bookkeeping `cleaned_rtc` column. -/
def rowToDict (lr : LoadedRow) : List (String × Cell) :=
  ("rtc_number", Cell.str lr.row.rtc_number) :: lr.row.rest
    ++ [("cleaned_rtc", Cell.str lr.cleaned_rtc)]

/-- `farmer_data.pop('cleaned_rtc', None)`: drop the bookkeeping key. -/
def popCleanedRtc (d : List (String × Cell)) : List (String × Cell) :=
  d.filter (fun kv => !(kv.1 == "cleaned_rtc"))

/-- The serialization loop at app.py lines 109-113, applied to every
remaining pair. -/
def serializeDict (d : List (String × Cell)) : List (String × JVal) :=
  d.map (fun kv => (kv.1, serializeCell kv.2))

/-! ### Module-level state established at startup (app.py lines 17-45) -/

/-- A parsed JSON document (the schemes knowledge base). -/
inductive Json where
  | null
  | bool (b : Bool)
  | num (q : ℚ)
  | str (s : String)
  | arr (elems : List Json)
  | obj (members : List (String × Json))

/-- The module-level globals: `knowledge_base` (None when the schemes file
failed to load), `knowledge_base_string` (empty when it failed to load),
`farmer_df` (None when the CSV failed to load or lacked `rtc_number`), and
`api_key` (the `GEMINI_API_KEY` environment value, None when unset). -/
structure AppState where
  knowledge_base : Option Json
  knowledge_base_string : String
  farmer_df : Option (List LoadedRow)
  api_key : Option String

/-! ### The /get_farmer_data handler (app.py lines 91-117) -/

/-- A JSON response of the farmer-data route: HTTP status, the `success`
flag, the `error` message when present, and the `data` payload when
present.  The `elapsed` wall-clock field is a real-time measurement and is
not modelled. -/
structure Response where
  status : Nat
  success : Bool
  error : Option String
  data : Option (List (String × JVal))
deriving DecidableEq

/-- The `get_farmer_data` view function: dataset-availability check (line
94), presence/truthiness check on `rtc` (lines 98-99), normalization (line
102), first-match scan (lines 103-106), serialization (lines 106-115), or
the 404 branch (line 117). -/
def get_farmer_data (st : AppState) (rtc : Option PyVal) : Response :=
  match st.farmer_df with
  | Option.none =>
      Response.mk 500 false (some "Farmer data is not available on the server.") Option.none
  | some df =>
      if pyGetTruthy rtc then
        match df.find? (fun lr =>
            lr.cleaned_rtc == cleaned_rtc_input (pyStr ((rtc).getD PyVal.null))) with
        | some lr =>
            Response.mk 200 true Option.none
              (some (serializeDict (popCleanedRtc (rowToDict lr))))
        | Option.none =>
            Response.mk 404 false (some "Farmer with this RTC number not found.") Option.none
      else
        Response.mk 400 false (some "RTC number is required.") Option.none

/-! ### The /chat handler (app.py lines 120-145) -/

/-- Outcome of the external completion call, had it been performed:
`generate_content` either returns text or raises. -/
inductive CompletionResult where
  | ok (text : String)
  | failure
deriving DecidableEq

/-- A JSON response of the chat route, extended with the observable
`completion_invoked`: whether control reached the `genai` call inside the
`try` block (network I/O attempted). -/
structure ChatResponse where
  status : Nat
  success : Bool
  reply : String
  completion_invoked : Bool
deriving DecidableEq

/-- The `chat` view function: presence check on `message` (lines 124-126),
knowledge-base check (lines 128-129), credential check (lines 131-132), and
the completion call with its generic failure handler (lines 134-145). -/
def chat (st : AppState) (message : Option PyVal) (completion : CompletionResult) :
    ChatResponse :=
  if !pyGetTruthy message then
    ChatResponse.mk 400 false "Invalid request. Please provide a message." false
  else if st.knowledge_base_string == "" then
    ChatResponse.mk 500 false "Knowledge base not loaded. Please contact administrator." false
  else if !strOptTruthy st.api_key then
    ChatResponse.mk 500 false "Chatbot API is not configured. Please contact administrator." false
  else
    match completion with
    | CompletionResult.ok text => ChatResponse.mk 200 true text true
    | CompletionResult.failure =>
        ChatResponse.mk 500 false "Sorry, I encountered an error. Please try again later." true

/-! ### The /health handler (app.py lines 71-78) -/

/-- The health payload: always status 200, plus the three subsystem
booleans, each an `is not None` test on the corresponding global. -/
structure HealthResponse where
  status : Nat
  knowledge_base_loaded : Bool
  farmer_data_loaded : Bool
  api_key_configured : Bool
deriving DecidableEq

/-- The `health` view function. -/
def health (st : AppState) : HealthResponse :=
  HealthResponse.mk 200 st.knowledge_base.isSome st.farmer_df.isSome st.api_key.isSome

/-! ### Concrete startup states used by counterexamples and witnesses -/

/-- A tiny schemes document. -/
def kb0 : Json :=
  Json.obj [("scheme_name", Json.str "PMKSY")]

/-- Startup where every load failed and no credential is set. -/
def stNone : AppState :=
  AppState.mk Option.none "" Option.none Option.none

/-- Startup where everything loaded but the farmer table is empty. -/
def stEmptyTable : AppState :=
  AppState.mk (some kb0) "kb text" (some (loadTable [])) (some "key1")

/-- Two rows whose identifiers normalize to the same key `ab1`. -/
def tDup : List Row :=
  [Row.mk "AB-1" [("x", Cell.num 1)], Row.mk "ab1" [("x", Cell.num 2)]]

/-- Startup with the duplicate-key table loaded. -/
def stDup : AppState :=
  AppState.mk (some kb0) "kb text" (some (loadTable tDup)) (some "key1")

/-- The row of the specification scenario: `{rtc_number: "123/ABC-45",
soil_ph: 6.5}`, widened with a missing-value cell (6.5 is the rational
13/2). -/
def rowScenario : Row :=
  Row.mk "123/ABC-45" [("soil_ph", Cell.num (13/2)), ("notes", Cell.na)]

/-- Startup with only the scenario row loaded. -/
def stScenario : AppState :=
  AppState.mk (some kb0) "kb text" (some (loadTable [rowScenario])) (some "key1")

/-- A single-row table whose only normalized key is `ab1`. -/
def tOne : List Row :=
  [Row.mk "AB-1" [("x", Cell.num 1)]]

/-- Startup with the single-row table loaded. -/
def stOne : AppState :=
  AppState.mk (some kb0) "kb text" (some (loadTable tOne)) (some "key1")

/-- Startup where `GEMINI_API_KEY` is set to the empty string. -/
def stEmptyKey : AppState :=
  AppState.mk (some kb0) "kb text" (some (loadTable [])) (some "")

/-- Startup where only the schemes file failed to load. -/
def stKbFailed : AppState :=
  AppState.mk Option.none "" (some (loadTable [])) (some "key1")

/-! ### Character-level lemmas -/

theorem char_eq_of_toNat_eq (c d : Char) (h : c.toNat = d.toNat) : c = d := by
  rw [← Char.ofNat_toNat c, ← Char.ofNat_toNat d, h]

theorem char_toNat_ofNat_valid (n : Nat) (h1 : 97 ≤ n) (h2 : n ≤ 122) :
    (Char.ofNat n).toNat = n := by
  have hv : n.isValidChar := Or.inl (by omega)
  simp [Char.ofNat, hv, Char.ofNatAux, Char.toNat, UInt32.toNat, BitVec.toNat_ofNatLt]

theorem lowerChar_toNat (c : Char) :
    (lowerChar c).toNat = if 65 ≤ c.toNat ∧ c.toNat ≤ 90 then c.toNat + 32 else c.toNat := by
  unfold lowerChar
  by_cases h : 65 ≤ c.toNat ∧ c.toNat ≤ 90
  · have hb : ('A' ≤ c && c ≤ 'Z') = true := by
      simp [Char.le_def, UInt32.le_def, BitVec.le_def, Char.toNat, UInt32.toNat] at h ⊢
      omega
    rw [hb]
    simp only [if_pos h, if_true]
    exact char_toNat_ofNat_valid _ (by omega) (by omega)
  · have hb : ('A' ≤ c && c ≤ 'Z') = false := by
      simp [Char.le_def, UInt32.le_def, BitVec.le_def, Char.toNat, UInt32.toNat] at h ⊢
      omega
    rw [hb]
    simp [h]

theorem isAlnumChar_iff (c : Char) :
    isAlnumChar c = true ↔
      (97 ≤ c.toNat ∧ c.toNat ≤ 122) ∨ (65 ≤ c.toNat ∧ c.toNat ≤ 90) ∨
        (48 ≤ c.toNat ∧ c.toNat ≤ 57) := by
  simp [isAlnumChar, Char.le_def, UInt32.le_def, BitVec.le_def, Char.toNat, UInt32.toNat]
  omega

theorem lowerChar_idem (c : Char) : lowerChar (lowerChar c) = lowerChar c := by
  apply char_eq_of_toNat_eq
  rw [lowerChar_toNat, lowerChar_toNat]
  by_cases h : 65 ≤ c.toNat ∧ c.toNat ≤ 90
  · rw [if_pos h, if_neg (by omega)]
  · simp only [if_neg h]

theorem isAlnumChar_lowerChar (c : Char) (h : isAlnumChar c = true) :
    isAlnumChar (lowerChar c) = true := by
  rw [isAlnumChar_iff] at h ⊢
  rw [lowerChar_toNat]
  by_cases h2 : 65 ≤ c.toNat ∧ c.toNat ≤ 90
  · rw [if_pos h2]
    omega
  · rw [if_neg h2]
    omega

/-! ### String-level normalization lemmas -/

theorem cleaned_rtc_row_eq_input (s : String) :
    cleaned_rtc_row s = cleaned_rtc_input s := rfl

theorem cleaned_rtc_input_data (s : String) :
    (cleaned_rtc_input s).data = (s.data.filter isAlnumChar).map lowerChar := rfl

theorem cleaned_rtc_input_idem (s : String) :
    cleaned_rtc_input (cleaned_rtc_input s) = cleaned_rtc_input s := by
  unfold cleaned_rtc_input strLower stripNonAlnum
  apply congrArg String.mk
  have hfilter :
      ((s.data.filter isAlnumChar).map lowerChar).filter isAlnumChar
        = (s.data.filter isAlnumChar).map lowerChar := by
    apply List.filter_eq_self.mpr
    intro c hc
    rcases List.mem_map.mp hc with ⟨a, ha, rfl⟩
    exact isAlnumChar_lowerChar a (List.of_mem_filter ha)
  rw [show (String.mk ((s.data.filter isAlnumChar).map lowerChar)).data
        = (s.data.filter isAlnumChar).map lowerChar from rfl]
  rw [hfilter, List.map_map]
  simp [Function.comp, lowerChar_idem]

/-! ### Claim theorems -/

/-- C3: the key normalization (remove every character outside `[A-Za-z0-9]`,
then lower-case) is deterministic (it is a function) and idempotent, and the
load-time function (app.py line 40) and the call-time function (app.py line
102) are the same function. -/
theorem claim_normalization_idempotent_and_uniform (r : String) :
    cleaned_rtc_input (cleaned_rtc_input r) = cleaned_rtc_input r
      ∧ cleaned_rtc_row r = cleaned_rtc_input r :=
  ⟨cleaned_rtc_input_idem r, cleaned_rtc_row_eq_input r⟩

/-- C1, counterexample: with the farmer dataset not loaded, a request with
an absent `rtc` is answered 500 (DataUnavailable), not 400 — the dataset
check at app.py line 94 runs before the input check at lines 98-100, so the
MissingInput rejection is not independent of the dataset state. -/
theorem claim_missing_rtc_cex :
    (get_farmer_data stNone Option.none).status = 500 ∧ (500 : Nat) ≠ 400 := by
  constructor
  · rfl
  · decide

/-- C1, amended: when the farmer dataset did load, a request whose `rtc`
is absent or falsy is rejected with the MissingInput 400 error, uniformly in
the table contents (the store is never consulted). -/
theorem claim_missing_rtc_400 (st : AppState) (t : List LoadedRow) (rtc : Option PyVal)
    (hdf : st.farmer_df = some t) (hfalsy : pyGetTruthy rtc = false) :
    get_farmer_data st rtc
      = Response.mk 400 false (some "RTC number is required.") Option.none := by
  unfold get_farmer_data
  rw [hdf]
  simp [hfalsy]

/-- C1 witness: the amended theorem applied to the empty-table state and an
absent `rtc`. -/
theorem claim_missing_rtc_400_witness :
    get_farmer_data stEmptyTable Option.none
      = Response.mk 400 false (some "RTC number is required.") Option.none :=
  claim_missing_rtc_400 stEmptyTable (loadTable []) Option.none rfl rfl

/-- C6: a /chat request with an empty or missing `message` is answered 400
and the completion client is never invoked. -/
theorem claim_chat_missing_message_400 (st : AppState) (message : Option PyVal)
    (completion : CompletionResult) (hfalsy : pyGetTruthy message = false) :
    chat st message completion
      = ChatResponse.mk 400 false "Invalid request. Please provide a message." false := by
  unfold chat
  simp [hfalsy]

/-- C6 witness: the theorem applied to a fully-loaded state and an absent
message. -/
theorem claim_chat_missing_message_400_witness :
    chat stEmptyTable Option.none CompletionResult.failure
      = ChatResponse.mk 400 false "Invalid request. Please provide a message." false :=
  claim_chat_missing_message_400 stEmptyTable Option.none CompletionResult.failure rfl

/-- C7, counterexample: when the knowledge base failed to load but the
request also has an empty message, the response is 400, not 500 — the
message check at app.py lines 124-126 runs first. -/
theorem claim_chat_kb_failed_cex :
    (chat stKbFailed Option.none CompletionResult.failure).status = 400
      ∧ (400 : Nat) ≠ 500 := by
  constructor
  · rfl
  · decide

/-- C7, amended: a /chat request with a non-empty `message`, made when the
knowledge base failed to load, is answered 500 and no completion call is
attempted. -/
theorem claim_chat_kb_failed_500 (st : AppState) (message : Option PyVal)
    (completion : CompletionResult) (hmsg : pyGetTruthy message = true)
    (hkb : st.knowledge_base_string = "") :
    chat st message completion
      = ChatResponse.mk 500 false
          "Knowledge base not loaded. Please contact administrator." false := by
  unfold chat
  simp [hmsg, hkb]

/-- C7 witness: the amended theorem applied to the failed-knowledge-base
state and a non-empty message. -/
theorem claim_chat_kb_failed_500_witness :
    chat stKbFailed (some (PyVal.str "What is scheme X?")) CompletionResult.failure
      = ChatResponse.mk 500 false
          "Knowledge base not loaded. Please contact administrator." false :=
  claim_chat_kb_failed_500 stKbFailed (some (PyVal.str "What is scheme X?"))
    CompletionResult.failure rfl rfl

/-- C8: with the credential absent from the environment, a /chat request
with a non-empty message and a loaded knowledge base is answered 500
immediately, with no completion call (no network I/O) attempted. -/
theorem claim_chat_no_api_key_500 (st : AppState) (message : Option PyVal)
    (completion : CompletionResult) (hmsg : pyGetTruthy message = true)
    (hkb : st.knowledge_base_string ≠ "") (hkey : st.api_key = Option.none) :
    chat st message completion
      = ChatResponse.mk 500 false
          "Chatbot API is not configured. Please contact administrator." false := by
  unfold chat
  simp [hmsg, hkb, hkey, strOptTruthy]

/-- C8 witness: the theorem applied to a state with a loaded knowledge base
and no credential. -/
theorem claim_chat_no_api_key_500_witness :
    chat (AppState.mk (some kb0) "kb text" (some (loadTable [])) Option.none)
        (some (PyVal.str "What is scheme X?")) (CompletionResult.ok "an answer")
      = ChatResponse.mk 500 false
          "Chatbot API is not configured. Please contact administrator." false :=
  claim_chat_no_api_key_500 (AppState.mk (some kb0) "kb text" (some (loadTable [])) Option.none)
    (some (PyVal.str "What is scheme X?")) (CompletionResult.ok "an answer") rfl
    (by decide) rfl

/-- C5, counterexample: with a single-row table loaded whose only normalized
key is `ab1`, the empty identifier — whose normalized form `""` matches no
loaded row's key — is answered 400 (MissingInput), not 404: the truthiness
check at app.py lines 98-100 fires before the lookup. -/
theorem claim_no_match_cex :
    (loadTable tOne).map LoadedRow.cleaned_rtc = ["ab1"]
      ∧ cleaned_rtc_input "" = ""
      ∧ (get_farmer_data stOne (some (PyVal.str ""))).status = 400
      ∧ (400 : Nat) ≠ 404 := by
  refine ⟨by decide, rfl, rfl, by decide⟩

/-- C5, amended: for every non-empty identifier whose normalized form
equals no loaded row's normalized key, /get_farmer_data returns the
NotFound 404 error (and, being a total function, never crashes). -/
theorem claim_no_match_404 (st : AppState) (t : List LoadedRow) (s : String)
    (hdf : st.farmer_df = some t) (hne : s ≠ "")
    (hnomatch : ∀ lr ∈ t, lr.cleaned_rtc ≠ cleaned_rtc_input s) :
    get_farmer_data st (some (PyVal.str s))
      = Response.mk 404 false (some "Farmer with this RTC number not found.") Option.none := by
  have htruthy : pyGetTruthy (some (PyVal.str s)) = true := by
    simp [pyGetTruthy, pyTruthy, hne]
  have hfind : t.find? (fun lr => lr.cleaned_rtc == cleaned_rtc_input s) = Option.none := by
    rw [List.find?_eq_none]
    intro lr hlr
    simp only [beq_iff_eq]
    exact hnomatch lr hlr
  unfold get_farmer_data
  rw [hdf]
  simp [htruthy, pyStr, hfind]

/-- C5 witness: the amended theorem applied to the single-row table and the
unmatched identifier `999zzz` of the specification scenario. -/
theorem claim_no_match_404_witness :
    get_farmer_data stOne (some (PyVal.str "999zzz"))
      = Response.mk 404 false (some "Farmer with this RTC number not found.") Option.none :=
  claim_no_match_404 stOne (loadTable tOne) "999zzz" rfl (by decide) (by decide)

/-- C9, counterexample: with `GEMINI_API_KEY` set to the empty string,
/health reports the credential boolean as true (`api_key is not None`,
app.py line 77) while /chat's credential check (`if not api_key`, line 131)
fails, answering 500 without invoking the completion client — so the
boolean is not true exactly when /chat's credential check passes. -/
theorem claim_health_cex :
    (health stEmptyKey).api_key_configured = true
      ∧ chat stEmptyKey (some (PyVal.str "What is scheme X?")) (CompletionResult.ok "an answer")
          = ChatResponse.mk 500 false
              "Chatbot API is not configured. Please contact administrator." false := by
  exact ⟨rfl, rfl⟩

/-- C9, amended: /health always returns 200, never throws (it is a total
function of the state), and its three booleans are each the `is not None`
test of the corresponding startup global; the credential boolean is true
whenever /chat's credential check passes, though not conversely (an
empty-string credential makes the boolean true while the check fails). -/
theorem claim_health_reflects_state (st : AppState) :
    health st
        = HealthResponse.mk 200 st.knowledge_base.isSome st.farmer_df.isSome st.api_key.isSome
      ∧ (strOptTruthy st.api_key = true → (health st).api_key_configured = true) := by
  constructor
  · rfl
  · intro hpass
    cases hk : st.api_key with
    | none => rw [hk] at hpass; simp [strOptTruthy] at hpass
    | some s => simp [health, hk]

/-- C9 witness: the amended theorem applied to the fully-loaded state. -/
theorem claim_health_reflects_state_witness :
    (health stEmptyTable
        = HealthResponse.mk 200 stEmptyTable.knowledge_base.isSome
            stEmptyTable.farmer_df.isSome stEmptyTable.api_key.isSome)
      ∧ (strOptTruthy stEmptyTable.api_key = true
          → (health stEmptyTable).api_key_configured = true) :=
  claim_health_reflects_state stEmptyTable

/-- C10, counterexample: when the farmer dataset failed to load, a request
binding `rtc` to the falsy value 0 is answered 500, not 400 (the dataset
check at app.py line 94 runs first) — though it is still treated exactly
like an absent key, which is also answered 500 there. -/
theorem claim_falsy_cex :
    pyTruthy (PyVal.int 0) = false
      ∧ (get_farmer_data stNone (some (PyVal.int 0))).status = 500
      ∧ (get_farmer_data stNone Option.none).status = 500
      ∧ (500 : Nat) ≠ 400 := by
  refine ⟨rfl, rfl, rfl, by decide⟩

/-- C10, amended: presence is decided by truthiness — a body binding `rtc`
(respectively `message`) to a falsy JSON value is treated exactly like an
absent key by both handlers in every startup state; /get_farmer_data
answers it 400 provided the dataset loaded, and /chat answers it 400
unconditionally. -/
theorem claim_falsy_same_as_absent (st : AppState) (v : PyVal) (completion : CompletionResult)
    (hfalsy : pyTruthy v = false) :
    get_farmer_data st (some v) = get_farmer_data st Option.none
      ∧ chat st (some v) completion = chat st Option.none completion
      ∧ (st.farmer_df.isSome = true → (get_farmer_data st (some v)).status = 400)
      ∧ (chat st (some v) completion).status = 400 := by
  have hget : pyGetTruthy (some v) = pyGetTruthy Option.none := by
    simp [pyGetTruthy, hfalsy]
  refine ⟨?_, ?_, ?_, ?_⟩
  · unfold get_farmer_data
    cases st.farmer_df with
    | none => rfl
    | some df => simp [pyGetTruthy, hfalsy]
  · unfold chat
    simp [pyGetTruthy, hfalsy]
  · intro hdf
    cases hk : st.farmer_df with
    | none => rw [hk] at hdf; simp at hdf
    | some df =>
        unfold get_farmer_data
        rw [hk]
        simp [pyGetTruthy, hfalsy]
  · unfold chat
    simp [pyGetTruthy, hfalsy]

/-- C10 witness: the amended theorem applied to the loaded empty-table
state and the falsy value `false`. -/
theorem claim_falsy_same_as_absent_witness :
    (get_farmer_data stEmptyTable (some (PyVal.bool false))
        = get_farmer_data stEmptyTable Option.none)
      ∧ (chat stEmptyTable (some (PyVal.bool false)) CompletionResult.failure
          = chat stEmptyTable Option.none CompletionResult.failure)
      ∧ (stEmptyTable.farmer_df.isSome = true
          → (get_farmer_data stEmptyTable (some (PyVal.bool false))).status = 400)
      ∧ (chat stEmptyTable (some (PyVal.bool false)) CompletionResult.failure).status = 400 :=
  claim_falsy_same_as_absent stEmptyTable (PyVal.bool false) CompletionResult.failure rfl

/-- C2, counterexample: the loaded table `tDup` holds two rows whose
identifiers both normalize to `ab1`; querying with the second row's
original identifier `ab1` succeeds but returns the first row's data
(`rtc_number` `AB-1`, `x` 1), which is not the queried row minus its key
field — first match wins, so lookup is not total in the claimed sense. -/
theorem claim_lookup_total_cex :
    Row.mk "ab1" [("x", Cell.num 2)] ∈ tDup
      ∧ get_farmer_data stDup (some (PyVal.str "ab1"))
          = Response.mk 200 true Option.none
              (some [("rtc_number", JVal.str "AB-1"), ("x", JVal.num 1)])
      ∧ serializeDict (popCleanedRtc (rowToDict
            (LoadedRow.mk (Row.mk "ab1" [("x", Cell.num 2)]) (cleaned_rtc_row "ab1"))))
          ≠ [("rtc_number", JVal.str "AB-1"), ("x", JVal.num 1)] := by
  refine ⟨by decide, by decide, by decide⟩

/-- C2, amended: for every loaded row with a non-empty original
`rtc_number`, querying /get_farmer_data with that original value succeeds
(status 200) and returns, minus the internal key field, the first loaded
row whose normalized key equals the query's normalized key — which is the
queried row itself whenever normalized keys are duplicate-free. -/
theorem claim_lookup_total_first_match (st : AppState) (t : List Row) (r : Row)
    (hdf : st.farmer_df = some (loadTable t)) (hr : r ∈ t) (hne : r.rtc_number ≠ "") :
    ∃ lr,
      (loadTable t).find? (fun x => x.cleaned_rtc == cleaned_rtc_input r.rtc_number) = some lr
        ∧ lr ∈ loadTable t
        ∧ lr.cleaned_rtc = cleaned_rtc_row r.rtc_number
        ∧ get_farmer_data st (some (PyVal.str r.rtc_number))
            = Response.mk 200 true Option.none
                (some (serializeDict (popCleanedRtc (rowToDict lr))))
        ∧ ((∀ r1 ∈ t, ∀ r2 ∈ t,
              cleaned_rtc_row r1.rtc_number = cleaned_rtc_row r2.rtc_number → r1 = r2)
            → lr.row = r) := by
  have hsome :
      ((loadTable t).find? (fun x => x.cleaned_rtc == cleaned_rtc_input r.rtc_number)).isSome
        = true := by
    rw [List.find?_isSome]
    refine ⟨LoadedRow.mk r (cleaned_rtc_row r.rtc_number), ?_, ?_⟩
    · exact List.mem_map.mpr ⟨r, hr, rfl⟩
    · simp [cleaned_rtc_row_eq_input]
  obtain ⟨lr, hfind⟩ := Option.isSome_iff_exists.mp hsome
  have hmem : lr ∈ loadTable t := List.mem_of_find?_eq_some hfind
  have hkey : lr.cleaned_rtc = cleaned_rtc_row r.rtc_number := by
    have := List.find?_some hfind
    rw [beq_iff_eq] at this
    rw [this, cleaned_rtc_row_eq_input]
  refine ⟨lr, hfind, hmem, hkey, ?_, ?_⟩
  · have htruthy : pyGetTruthy (some (PyVal.str r.rtc_number)) = true := by
      simp [pyGetTruthy, pyTruthy, hne]
    unfold get_farmer_data
    rw [hdf]
    simp [htruthy, pyStr, hfind]
  · intro hinj
    obtain ⟨r2, hr2, hlr2⟩ := List.mem_map.mp hmem
    have hk2 : cleaned_rtc_row r2.rtc_number = cleaned_rtc_row r.rtc_number := by
      rw [← hkey, ← hlr2]
    have hr2r : r2 = r := hinj r2 hr2 r hr hk2
    rw [← hlr2, hr2r]

/-- C2 witness: the amended theorem applied to the specification-scenario
table, whose single row has original identifier `123/ABC-45`. -/
theorem claim_lookup_total_first_match_witness :
    ∃ lr,
      (loadTable [rowScenario]).find?
          (fun x => x.cleaned_rtc == cleaned_rtc_input rowScenario.rtc_number) = some lr
        ∧ lr ∈ loadTable [rowScenario]
        ∧ lr.cleaned_rtc = cleaned_rtc_row rowScenario.rtc_number
        ∧ get_farmer_data stScenario (some (PyVal.str rowScenario.rtc_number))
            = Response.mk 200 true Option.none
                (some (serializeDict (popCleanedRtc (rowToDict lr))))
        ∧ ((∀ r1 ∈ [rowScenario], ∀ r2 ∈ [rowScenario],
              cleaned_rtc_row r1.rtc_number = cleaned_rtc_row r2.rtc_number → r1 = r2)
            → lr.row = rowScenario) :=
  claim_lookup_total_first_match stScenario [rowScenario] rowScenario rfl
    (List.mem_singleton.mpr rfl) (by decide)

/-- Serialization keeps the key of every pair. -/
theorem serializeDict_keys (d : List (String × Cell)) :
    (serializeDict d).map Prod.fst = d.map Prod.fst := by
  unfold serializeDict
  rw [List.map_map]
  rfl

/-- After the pop, no pair keyed `cleaned_rtc` remains. -/
theorem popCleanedRtc_no_cleaned_key (d : List (String × Cell)) :
    "cleaned_rtc" ∉ (popCleanedRtc d).map Prod.fst := by
  intro hmem
  obtain ⟨kv, hkv, hfst⟩ := List.mem_map.mp hmem
  have h2 := (List.mem_filter.mp hkv).2
  rw [hfst] at h2
  simp at h2

/-- The serialized payload binds `rtc_number` to the row's original,
un-normalized identifier. -/
theorem lookup_serializeDict_rowToDict (lr : LoadedRow) :
    (serializeDict (popCleanedRtc (rowToDict lr))).lookup "rtc_number"
      = some (JVal.str lr.row.rtc_number) := by
  unfold rowToDict popCleanedRtc serializeDict
  rw [List.cons_append, List.filter_cons_of_pos (by simp), List.map_cons]
  simp [List.lookup, serializeCell]

/-- C4: whenever /get_farmer_data answers 200, its payload is exactly the
matched row serialized as a flat mapping from column name to a
string/number/null value, in which the internal `cleaned_rtc` column does
not occur, the `rtc_number` field carries the row's original un-normalized
identifier, and every missing-value cell surviving the pop appears as
null. -/
theorem claim_success_shape (st : AppState) (rtc : Option PyVal) (d : List (String × JVal))
    (h : get_farmer_data st rtc = Response.mk 200 true Option.none (some d)) :
    ∃ df lr, st.farmer_df = some df ∧ lr ∈ df
      ∧ d = serializeDict (popCleanedRtc (rowToDict lr))
      ∧ "cleaned_rtc" ∉ d.map Prod.fst
      ∧ d.lookup "rtc_number" = some (JVal.str lr.row.rtc_number)
      ∧ ∀ k, (k, Cell.na) ∈ popCleanedRtc (rowToDict lr) → (k, JVal.null) ∈ d := by
  unfold get_farmer_data at h
  split at h
  next hdf =>
    injection h with h1 h2 h3 h4
    exact absurd h1 (by decide)
  next df hdf =>
    split at h
    next ht =>
      split at h
      next lr hfind =>
        injection h with h1 h2 h3 h4
        have hd : d = serializeDict (popCleanedRtc (rowToDict lr)) :=
          (Option.some.inj h4).symm
        refine ⟨df, lr, hdf, List.mem_of_find?_eq_some hfind, hd, ?_, ?_, ?_⟩
        · rw [hd, serializeDict_keys]
          exact popCleanedRtc_no_cleaned_key (rowToDict lr)
        · rw [hd]
          exact lookup_serializeDict_rowToDict lr
        · intro k hk
          rw [hd]
          exact List.mem_map.mpr ⟨(k, Cell.na), hk, rfl⟩
      next hfind =>
        injection h with h1 h2 h3 h4
        exact absurd h1 (by decide)
    next ht =>
      injection h with h1 h2 h3 h4
      exact absurd h1 (by decide)

/-- C4 witness: the theorem applied to the scenario state and the query
`123abc45`, whose payload is `rtc_number` in original form, `soil_ph` as
the number 13/2, and the missing `notes` cell as null. -/
theorem claim_success_shape_witness :
    ∃ df lr, stScenario.farmer_df = some df ∧ lr ∈ df
      ∧ [("rtc_number", JVal.str "123/ABC-45"), ("soil_ph", JVal.num (13/2)),
          ("notes", JVal.null)]
          = serializeDict (popCleanedRtc (rowToDict lr))
      ∧ "cleaned_rtc" ∉ ([("rtc_number", JVal.str "123/ABC-45"),
          ("soil_ph", JVal.num (13/2)), ("notes", JVal.null)]).map Prod.fst
      ∧ ([("rtc_number", JVal.str "123/ABC-45"), ("soil_ph", JVal.num (13/2)),
          ("notes", JVal.null)]).lookup "rtc_number" = some (JVal.str lr.row.rtc_number)
      ∧ ∀ k, (k, Cell.na) ∈ popCleanedRtc (rowToDict lr)
          → (k, JVal.null) ∈ [("rtc_number", JVal.str "123/ABC-45"),
              ("soil_ph", JVal.num (13/2)), ("notes", JVal.null)] :=
  claim_success_shape stScenario (some (PyVal.str "123abc45"))
    [("rtc_number", JVal.str "123/ABC-45"), ("soil_ph", JVal.num (13/2)), ("notes", JVal.null)]
    rfl
